import Mathlib

/-!
# CourseShop — verification of the subscription/auth core

Shallow embedding of the CourseShop backend
(`backend/src/services/SubscriptionService.ts`, `AuthService.ts`,
`routes/subscriptions.ts`, `routes/auth.ts`, `middleware/auth.ts`,
`db/schema.sql`) in Lean 4, together with theorems settling the
spec claims about it.

Modelling conventions:
* JavaScript `number` values that hold currency amounts are modelled as
  exact rationals (`ℚ`); `x.toFixed(2)` followed by `parseFloat` is
  modelled as exact rounding to 2 decimal places with ties away from
  zero (the decimal string-rounding the spec describes).
* The relational database is modelled as an explicit state value
  (`DB`) threaded through the service operations; SQL SELECT / INSERT
  become list lookups / cons.
* External libraries (bcrypt, jsonwebtoken, the zod e-mail format test)
  are modelled as function parameters, so theorems quantify over every
  possible behaviour of those collaborators.
* Thrown `Error` objects are modelled as `Except String` values whose
  payload is the exact `message` string from the source; the Express
  per-route `catch` blocks become total functions dispatching on
  that string, exactly as the source dispatches on `error.message`.
-/

namespace CourseShop

/-! ## Pricing constants and pure helpers (SubscriptionService.ts) -/

/-- `const VALID_PROMO_CODE` is the string `BFSALE25`. -/
def VALID_PROMO_CODE : String := "BFSALE25"

/-- `const PROMO_DISCOUNT = 0.5` (50% discount) -/
def PROMO_DISCOUNT : ℚ := 1/2

/-- Result shape of `validatePromoCode`. -/
structure PromoValidation where
  valid : Bool
  discount : ℚ
  deriving Repr, DecidableEq

/-- `SubscriptionService.validatePromoCode`: exact, case-sensitive string
match against the single recognized code. -/
def validatePromoCode (code : String) : PromoValidation :=
  if code = VALID_PROMO_CODE then
    { valid := true, discount := PROMO_DISCOUNT }
  else
    { valid := false, discount := 0 }

/-- Exact-arithmetic model of JavaScript
`parseFloat(x.toFixed(2))`: round to 2 decimal places, ties away from
zero (decimal string-rounding). -/
def toFixed2 (x : ℚ) : ℚ :=
  if 0 ≤ x then ((⌊x * 100 + 1/2⌋ : ℤ) : ℚ) / 100
  else -(((⌊(-x) * 100 + 1/2⌋ : ℤ) : ℚ) / 100)

/-- `SubscriptionService.calculateDiscountedPrice`:
`parseFloat((originalPrice * (1 - discount)).toFixed(2))`. -/
def calculateDiscountedPrice (originalPrice discount : ℚ) : ℚ :=
  toFixed2 (originalPrice * (1 - discount))

/-- Spec-side rounding `round(x, 2)`: round `x` to 2 decimal places
(half up; for non-negative arguments this coincides with half away from
zero). Stated from the words of the spec, for comparison with
`calculateDiscountedPrice`. -/
def roundSpec2 (x : ℚ) : ℚ :=
  ((⌊x * 100 + 1/2⌋ : ℤ) : ℚ) / 100

/-! ## Data model (db/schema.sql, types.ts) -/

/-- A row of the `courses` table. `price` is `DECIMAL(10, 2)`: a value
with at most two decimal places (captured where needed by the
hypothesis `∃ m : ℕ, price = m / 100`). -/
structure Course where
  id : String
  title : String
  description : String
  price : ℚ
  image : String
  deriving Repr, DecidableEq

/-- A row of the `subscriptions` table. -/
structure Subscription where
  id : String
  userId : String
  courseId : String
  pricePaid : ℚ
  subscribedAt : ℕ
  deriving Repr, DecidableEq

/-- The database state visible to the subscription service. -/
structure DB where
  courses : List Course
  subscriptions : List Subscription
  deriving Repr, DecidableEq

/-- `SubscriptionService.isUserSubscribed`:
`SELECT id FROM subscriptions WHERE user_id = $1 AND course_id = $2`,
then `rows.length > 0`. -/
def isUserSubscribed (db : DB) (userId courseId : String) : Bool :=
  db.subscriptions.any fun s => s.userId = userId && s.courseId = courseId

/-- `SELECT ... FROM courses WHERE id = $1` (first row, if any). -/
def findCourse (db : DB) (courseId : String) : Option Course :=
  db.courses.find? fun c => c.id = courseId

/-- `SubscriptionService.subscribe`. Errors carry the exact `message`
string thrown by the source. `newId` and `now` stand for the
database-generated UUID and `CURRENT_TIMESTAMP` of the INSERT.
The JavaScript falsy test `if (!promoCode)` is true both for an absent
promo code and for the empty string. -/
def subscribe (db : DB) (userId courseId : String) (promoCode : Option String)
    (newId : String) (now : ℕ) : Except String (Subscription × DB) :=
  if isUserSubscribed db userId courseId then
    .error "User already subscribed to this course"
  else
    match findCourse db courseId with
    | none => .error "Course not found"
    | some course =>
      if course.price = 0 then
        let sub : Subscription :=
          { id := newId, userId := userId, courseId := courseId
            pricePaid := 0, subscribedAt := now }
        .ok (sub, { db with subscriptions := sub :: db.subscriptions })
      else
        match promoCode with
        | none => .error "Promo code required for paid courses"
        | some code =>
          if code = "" then
            .error "Promo code required for paid courses"
          else
            let promoValidation := validatePromoCode code
            if promoValidation.valid then
              let pricePaid := calculateDiscountedPrice course.price promoValidation.discount
              let sub : Subscription :=
                { id := newId, userId := userId, courseId := courseId
                  pricePaid := pricePaid, subscribedAt := now }
              .ok (sub, { db with subscriptions := sub :: db.subscriptions })
            else
              .error "Invalid promo code"

/-- The database state after a `subscribe` call: the INSERT happens only
on the success path, so a failed call leaves the state unchanged. -/
def subscribeFinalDB (db : DB) (userId courseId : String) (promoCode : Option String)
    (newId : String) (now : ℕ) : DB :=
  match subscribe db userId courseId promoCode newId now with
  | .ok (_, db2) => db2
  | .error _ => db

/-! ## HTTP boundary for POST /subscribe (routes/subscriptions.ts) -/

/-- The `catch` block of the POST /subscribe handler: it dispatches on
`error.message`, mapping the four recognized business-logic messages to
409 / 404 / 400 / 400 and every other error to 500. -/
def subscribeErrorStatus (msg : String) : ℕ :=
  if msg = "User already subscribed to this course" then 409
  else if msg = "Course not found" then 404
  else if msg = "Invalid promo code" then 400
  else if msg = "Promo code required for paid courses" then 400
  else 500

/-- The message PostgreSQL raises when the `UNIQUE(user_id, course_id)`
constraint of `schema.sql` rejects an INSERT into `subscriptions`. -/
def pgDuplicateKeyMessage : String :=
  "duplicate key value violates unique constraint \"subscriptions_user_id_course_id_key\""

/-- `subscribe` under the double-subscribe race of spec §4.3: the
pre-check and course lookup read the state `db0`, but by the time the
INSERT executes another request has committed, so the INSERT runs
against `db1`, where the `UNIQUE(user_id, course_id)` constraint can
reject it with a duplicate-key error. Same control flow as
`subscribe`, with the INSERT step made explicit against `db1`. -/
def subscribeRaced (db0 db1 : DB) (userId courseId : String) (promoCode : Option String)
    (newId : String) (now : ℕ) : Except String (Subscription × DB) :=
  if isUserSubscribed db0 userId courseId then
    .error "User already subscribed to this course"
  else
    match findCourse db0 courseId with
    | none => .error "Course not found"
    | some course =>
      if course.price = 0 then
        if isUserSubscribed db1 userId courseId then
          .error pgDuplicateKeyMessage
        else
          let sub : Subscription :=
            { id := newId, userId := userId, courseId := courseId
              pricePaid := 0, subscribedAt := now }
          .ok (sub, { db1 with subscriptions := sub :: db1.subscriptions })
      else
        match promoCode with
        | none => .error "Promo code required for paid courses"
        | some code =>
          if code = "" then
            .error "Promo code required for paid courses"
          else
            let promoValidation := validatePromoCode code
            if promoValidation.valid then
              let pricePaid := calculateDiscountedPrice course.price promoValidation.discount
              if isUserSubscribed db1 userId courseId then
                .error pgDuplicateKeyMessage
              else
                let sub : Subscription :=
                  { id := newId, userId := userId, courseId := courseId
                    pricePaid := pricePaid, subscribedAt := now }
                .ok (sub, { db1 with subscriptions := sub :: db1.subscriptions })
            else
              .error "Invalid promo code"

/-- Number of persisted subscriptions for one (userId, courseId) pair. -/
def countPair (db : DB) (userId courseId : String) : ℕ :=
  (db.subscriptions.filter fun s => s.userId = userId && s.courseId = courseId).length

/-- The schema invariant `UNIQUE(user_id, course_id)`: at most one
subscription per pair. -/
def AtMostOnePerPair (db : DB) : Prop :=
  ∀ userId courseId, countPair db userId courseId ≤ 1

/-! ## Auth service (services/AuthService.ts) -/

/-- A row of the `users` table: `password` holds the bcrypt hash. -/
structure UserRow where
  id : String
  email : String
  name : Option String
  password : String
  deriving Repr, DecidableEq

/-- The user shape returned to callers — no password field. -/
structure UserDTO where
  id : String
  email : String
  name : Option String
  deriving Repr, DecidableEq

/-- Result of a successful signup/login. -/
structure AuthResult where
  user : UserDTO
  token : String
  deriving Repr, DecidableEq

/-- `AuthService.login`. The bcrypt comparison (`comparePassword`) and
the JWT signing (`generateToken`) are external-library calls, modelled
as the parameters `cmp` (plaintext → stored hash → matches?) and
`sign` (userId → token). The SELECT by e-mail is modelled as `find?`
(the `email` column is UNIQUE). -/
def login (cmp : String → String → Bool) (sign : String → String)
    (users : List UserRow) (email password : String) : Except String AuthResult :=
  match users.find? (fun u => u.email = email) with
  | none => .error "Invalid credentials"
  | some user =>
    if cmp password user.password then
      .ok { user := { id := user.id, email := user.email, name := user.name }
            token := sign user.id }
    else
      .error "Invalid credentials"

/-- The `catch` block of the POST /auth/login handler: only the message
`Invalid credentials` is recognized (mapped to 401); anything else is
an unclassified 500. -/
def loginErrorStatus (msg : String) : ℕ :=
  if msg = "Invalid credentials" then 401 else 500

/-- An HTTP response, reduced to what the claims observe: the status
code and the `error` string of the JSON body (`"ok"` on success,
`"Validation failed"` for zod failures). -/
structure HttpResponse where
  status : ℕ
  body : String
  deriving Repr, DecidableEq

/-- The POST /auth/login handler (routes/auth.ts): `loginSchema.parse`
requires `email` to satisfy the zod e-mail format (modelled by the
external predicate `emailValid`) and `password` to have at least 8
characters; a schema failure throws `ZodError`, answered with
400 `Validation failed` before `AuthService.login` ever runs. -/
def loginRoute (emailValid : String → Bool) (cmp : String → String → Bool)
    (sign : String → String) (users : List UserRow)
    (email password : String) : HttpResponse :=
  if emailValid email && decide (8 ≤ password.length) then
    match login cmp sign users email password with
    | .ok _ => { status := 200, body := "ok" }
    | .error msg => { status := loginErrorStatus msg, body := msg }
  else
    { status := 400, body := "Validation failed" }

/-! ## Token verification and auth middleware (AuthService.verifyToken,
middleware/auth.ts) -/

/-- The ways `jwt.verify` can throw. -/
inductive JwtError where
  | badSignature
  | malformed
  | expired
  deriving Repr, DecidableEq

/-- `AuthService.verifyToken`: wraps `jwt.verify` (the external-library
call, modelled by the parameter `jwtVerify`, whose payload is the
`userId` it decodes) in try/catch, turning every throw into `null`.
Total by construction: no exception can escape. -/
def verifyToken (jwtVerify : String → Except JwtError String)
    (token : String) : Option String :=
  match jwtVerify token with
  | .ok payload => some payload
  | .error _ => none

/-- Outcome of the auth middleware: either respond immediately (the
route handler never runs) or call `next()` with the userId attached. -/
inductive MwResult where
  | respond (status : ℕ) (error : String)
  | next (userId : String)
  deriving Repr, DecidableEq

/-- `authMiddleware` (middleware/auth.ts): checks the Authorization
header exists, starts with `Bearer ` (modelled as equality of the
first seven characters, the JavaScript semantics of
`startsWith` with `Bearer `), and carries a token accepted by
`verifyToken`; any failure is answered 401 without running the
handler. `substring(7)` becomes `String.drop 7`. -/
def authMiddleware (jwtVerify : String → Except JwtError String)
    (authHeader : Option String) : MwResult :=
  match authHeader with
  | none => .respond 401 "Authorization header missing"
  | some header =>
    if header.take 7 = "Bearer " then
      match verifyToken jwtVerify (header.drop 7) with
      | none => .respond 401 "Invalid or expired token"
      | some userId => .next userId
    else
      .respond 401 "Invalid authorization format. Expected: Bearer <token>"

/-! ## Sample data for concrete instantiations -/

/-- A paid course ($100). -/
def sampleCourse : Course :=
  { id := "c1", title := "Intro", description := "d", price := 100, image := "img" }

/-- A database holding only `sampleCourse`, with no subscriptions. -/
def sampleDB : DB := { courses := [sampleCourse], subscriptions := [] }

/-- The subscription created by subscribing `u1` to `sampleCourse`
with the valid promo code. -/
def sampleSub : Subscription :=
  { id := "s1", userId := "u1", courseId := "c1", pricePaid := 50, subscribedAt := 0 }

/-- `sampleDB` after that subscription. -/
def sampleDB2 : DB := { courses := [sampleCourse], subscriptions := [sampleSub] }

/-- A free course. -/
def freeCourse : Course :=
  { id := "c0", title := "Free", description := "d", price := 0, image := "img" }

/-- A database holding only `freeCourse`, with no subscriptions. -/
def freeDB : DB := { courses := [freeCourse], subscriptions := [] }

/-- The subscription created by subscribing `u1` to `freeCourse`. -/
def freeSub : Subscription :=
  { id := "s1", userId := "u1", courseId := "c0", pricePaid := 0, subscribedAt := 0 }

/-- `freeDB` after that subscription. -/
def freeDB2 : DB := { courses := [freeCourse], subscriptions := [freeSub] }

/-- A one-cent course: the cheapest non-free price `DECIMAL(10, 2)`
can store. -/
def pennyCourse : Course :=
  { id := "cp", title := "Penny", description := "d", price := 1/100, image := "img" }

/-- A database holding only `pennyCourse`. -/
def pennyDB : DB := { courses := [pennyCourse], subscriptions := [] }

/-- `sampleDB` as seen by a racing INSERT: another request already
persisted a subscription for (u1, c1). -/
def racedDB : DB :=
  { courses := [sampleCourse]
    subscriptions := [{ id := "sX", userId := "u1", courseId := "c1"
                        pricePaid := 50, subscribedAt := 0 }] }

/-- A bcrypt comparison that rejects every password (stands for a hash
that matches nothing submitted). -/
def cmpNever : String → String → Bool := fun _ _ => false

/-- A token-signing function for concrete instantiations. -/
def signId : String → String := fun userId => userId

/-- A stored user row. -/
def userAlice : UserRow :=
  { id := "u1", email := "a@b.com", name := none, password := "h1" }

/-- A `jwt.verify` behaviour that throws TokenExpiredError on every
token. -/
def jwtAlwaysExpired : String → Except JwtError String := fun _ => .error .expired

/-- An e-mail format test that accepts everything. -/
def emailValidAll : String → Bool := fun _ => true

/-! ## General lemmas about the embedding -/

/-- The valid-flag of `validatePromoCode` is set exactly on the one
recognized code (exact, case-sensitive match). -/
theorem validatePromoCode_valid_iff (code : String) :
    ((validatePromoCode code).valid = true) ↔ code = VALID_PROMO_CODE := by
  unfold validatePromoCode
  split <;> simp_all

/-- On non-negative amounts, string-rounding with ties away from zero
agrees with round-half-up to 2 decimal places. -/
theorem toFixed2_eq_roundSpec2_of_nonneg (x : ℚ) (hx : 0 ≤ x) :
    toFixed2 x = roundSpec2 x := by
  simp [toFixed2, roundSpec2, hx]

/-- Inversion of a successful `subscribe` call: the pre-check passed,
the course exists, the state gained exactly the returned record, and
the price paid is 0 for a free course or the discounted price — which
is only reachable with the exact valid promo code — for a paid one. -/
theorem subscribe_ok_inv (db : DB) (u cId : String) (promo : Option String)
    (i : String) (t : ℕ) (sub : Subscription) (db2 : DB)
    (h : subscribe db u cId promo i t = .ok (sub, db2)) :
    isUserSubscribed db u cId = false ∧
    ∃ c, findCourse db cId = some c ∧
      sub.id = i ∧ sub.userId = u ∧ sub.courseId = cId ∧ sub.subscribedAt = t ∧
      db2 = { courses := db.courses, subscriptions := sub :: db.subscriptions } ∧
      ((c.price = 0 ∧ sub.pricePaid = 0) ∨
        (c.price ≠ 0 ∧ promo = some VALID_PROMO_CODE ∧
          sub.pricePaid = calculateDiscountedPrice c.price PROMO_DISCOUNT)) := by
  unfold subscribe at h
  split at h
  · cases h
  · next hns =>
    refine ⟨by simpa using hns, ?_⟩
    split at h
    · cases h
    · next c hc =>
      refine ⟨c, hc, ?_⟩
      split at h
      · next hfree =>
        simp only [Except.ok.injEq, Prod.mk.injEq] at h
        obtain ⟨hsub, hdb⟩ := h
        subst hsub
        subst hdb
        exact ⟨rfl, rfl, rfl, rfl, rfl, Or.inl ⟨hfree, rfl⟩⟩
      · next hpaid =>
        match promo with
        | none => exact absurd h (by simp)
        | some code =>
          dsimp only at h
          split at h
          · cases h
          · next hne =>
            split at h
            · next hvalid =>
              have hcode : code = VALID_PROMO_CODE :=
                (validatePromoCode_valid_iff code).mp hvalid
              simp only [Except.ok.injEq, Prod.mk.injEq] at h
              obtain ⟨hsub, hdb⟩ := h
              subst hsub
              subst hdb
              subst hcode
              exact ⟨rfl, rfl, rfl, rfl, rfl,
                Or.inr ⟨hpaid, rfl, by simp [validatePromoCode]⟩⟩
            · cases h

/-- Persisting one more subscription row adds one to the count of its
own (user, course) pair and leaves other pairs untouched. -/
theorem countPair_cons (cs : List Course) (s : Subscription) (subs : List Subscription)
    (u c : String) :
    countPair { courses := cs, subscriptions := s :: subs } u c =
      (if s.userId = u ∧ s.courseId = c then 1 else 0) +
        countPair { courses := cs, subscriptions := subs } u c := by
  by_cases hm : s.userId = u ∧ s.courseId = c
  · obtain ⟨h1, h2⟩ := hm
    subst h1
    subst h2
    simp [countPair, List.filter_cons, Nat.add_comm]
  · rw [if_neg hm]
    rcases not_and_or.mp hm with hu | hc
    · simp [countPair, List.filter_cons, hu]
    · simp [countPair, List.filter_cons, hc]

/-- A pair the pre-check reports unsubscribed has no persisted row. -/
theorem countPair_eq_zero_of_not_subscribed (db : DB) (u c : String)
    (h : isUserSubscribed db u c = false) : countPair db u c = 0 := by
  simp only [isUserSubscribed, List.any_eq_false] at h
  simp only [countPair, List.length_eq_zero]
  exact List.filter_eq_nil_iff.mpr h

/-- Round-half-up of a non-negative amount is non-negative. -/
theorem roundSpec2_nonneg (x : ℚ) (hx : 0 ≤ x) : 0 ≤ roundSpec2 x := by
  unfold roundSpec2
  have h0 : (0 : ℤ) ≤ ⌊x * 100 + 1/2⌋ := Int.le_floor.mpr (by push_cast; linarith)
  have h0q : (0 : ℚ) ≤ ((⌊x * 100 + 1/2⌋ : ℤ) : ℚ) := by exact_mod_cast h0
  linarith

/-- Rounding half of an `m`-cent price (m ≥ 1) never exceeds the
price. -/
theorem roundSpec2_half_le (m : ℕ) (hm : 1 ≤ m) :
    roundSpec2 ((m : ℚ) / 100 * (1/2)) ≤ (m : ℚ) / 100 := by
  unfold roundSpec2
  rw [show (m : ℚ) / 100 * (1/2) * 100 + 1/2 = (m : ℚ) / 2 + 1/2 by ring]
  have h1 : ((⌊(m : ℚ) / 2 + 1/2⌋ : ℤ) : ℚ) ≤ (m : ℚ) / 2 + 1/2 := Int.floor_le _
  have hm1 : (1 : ℚ) ≤ (m : ℚ) := by exact_mod_cast hm
  linarith

/-- For prices of at least 2 cents, the rounded half is strictly below
the price. -/
theorem roundSpec2_half_lt (m : ℕ) (hm : 2 ≤ m) :
    roundSpec2 ((m : ℚ) / 100 * (1/2)) < (m : ℚ) / 100 := by
  unfold roundSpec2
  rw [show (m : ℚ) / 100 * (1/2) * 100 + 1/2 = (m : ℚ) / 2 + 1/2 by ring]
  have h1 : ((⌊(m : ℚ) / 2 + 1/2⌋ : ℤ) : ℚ) ≤ (m : ℚ) / 2 + 1/2 := Int.floor_le _
  have hm1 : (2 : ℚ) ≤ (m : ℚ) := by exact_mod_cast hm
  linarith

/-- The 50%-discount computation of the source equals the
`round(price * 0.5, 2)` of the spec on non-negative prices. -/
theorem calculateDiscountedPrice_eq_roundSpec2 (p : ℚ) (hp : 0 ≤ p) :
    calculateDiscountedPrice p PROMO_DISCOUNT = roundSpec2 (p * (1/2)) := by
  unfold calculateDiscountedPrice PROMO_DISCOUNT
  rw [show p * (1 - 1/2) = p * (1/2) by ring]
  exact toFixed2_eq_roundSpec2_of_nonneg _ (by linarith)

/-! ## Claim theorems -/

/-- Claim C1: for every course with price > 0 and promo code exactly
`BFSALE25`, `subscribe` succeeds and the returned/persisted
`pricePaid` is `round(price * 0.5, 2)` — the 50% discount rounded to 2
decimal places. -/
theorem C1_valid_promo_halves_price (db : DB) (u cId i : String) (t : ℕ) (c : Course)
    (hfind : findCourse db cId = some c)
    (hns : isUserSubscribed db u cId = false)
    (hpos : 0 < c.price) :
    ∃ sub db2,
      subscribe db u cId (some "BFSALE25") i t = .ok (sub, db2) ∧
      sub.pricePaid = roundSpec2 (c.price * (1/2)) ∧
      db2.subscriptions = sub :: db.subscriptions := by
  refine ⟨{ id := i, userId := u, courseId := cId
            pricePaid := calculateDiscountedPrice c.price PROMO_DISCOUNT
            subscribedAt := t },
    { courses := db.courses
      subscriptions := { id := i, userId := u, courseId := cId
                         pricePaid := calculateDiscountedPrice c.price PROMO_DISCOUNT
                         subscribedAt := t } :: db.subscriptions }, ?_, ?_, rfl⟩
  · simp [subscribe, hns, hfind, hpos.ne', validatePromoCode, VALID_PROMO_CODE, PROMO_DISCOUNT]
  · exact calculateDiscountedPrice_eq_roundSpec2 c.price hpos.le

/-- Witness for C1: subscribing to the $100 course with `BFSALE25`
succeeds at the rounded half price. -/
theorem C1_witness :
    ∃ sub db2,
      subscribe sampleDB "u1" "c1" (some "BFSALE25") "s1" 0 = .ok (sub, db2) ∧
      sub.pricePaid = roundSpec2 (sampleCourse.price * (1/2)) ∧
      db2.subscriptions = sub :: sampleDB.subscriptions :=
  C1_valid_promo_halves_price sampleDB "u1" "c1" "s1" 0 sampleCourse
    (by simp [findCourse, sampleDB, sampleCourse])
    (by simp [isUserSubscribed, sampleDB])
    (by norm_num [sampleCourse])

/-- Claim C2: for every course with price = 0, `subscribe` succeeds
with `pricePaid = 0` for every promo-code argument whatsoever — the
promo code is ignored and never validated. -/
theorem C2_free_course_ignores_promo (db : DB) (u cId i : String) (t : ℕ) (c : Course)
    (promo : Option String)
    (hfind : findCourse db cId = some c)
    (hns : isUserSubscribed db u cId = false)
    (hfree : c.price = 0) :
    ∃ sub db2,
      subscribe db u cId promo i t = .ok (sub, db2) ∧
      sub.pricePaid = 0 ∧
      db2.subscriptions = sub :: db.subscriptions := by
  refine ⟨{ id := i, userId := u, courseId := cId, pricePaid := 0, subscribedAt := t },
    { courses := db.courses
      subscriptions := { id := i, userId := u, courseId := cId, pricePaid := 0,
                         subscribedAt := t } :: db.subscriptions }, ?_, rfl, rfl⟩
  simp [subscribe, hns, hfind, hfree]

/-- Witness for C2: subscribing to the free course with an arbitrary
bogus promo code succeeds at price 0. -/
theorem C2_witness :
    ∃ sub db2,
      subscribe freeDB "u1" "c0" (some "TOTALLY-BOGUS") "s1" 0 = .ok (sub, db2) ∧
      sub.pricePaid = 0 ∧
      db2.subscriptions = sub :: freeDB.subscriptions :=
  C2_free_course_ignores_promo freeDB "u1" "c0" "s1" 0 freeCourse (some "TOTALLY-BOGUS")
    (by simp [findCourse, freeDB, freeCourse])
    (by simp [isUserSubscribed, freeDB])
    (by norm_num [freeCourse])

/-- Counterexample for claim C3 as stated: a supplied promo code other
than `BFSALE25` — the empty string — fails with the message
`Promo code required for paid courses`, not `invalid promo code`; and
the messages in the code are capitalized, unlike those the claim quotes. -/
theorem C3_counterexample :
    subscribe sampleDB "u1" "c1" (some "") "s1" 0 =
      .error "Promo code required for paid courses" ∧
    "Promo code required for paid courses" ≠ "invalid promo code" ∧
    subscribe sampleDB "u1" "c1" none "s1" 0 =
      .error "Promo code required for paid courses" ∧
    "Promo code required for paid courses" ≠ "promo code required for paid courses" := by
  refine ⟨?_, by decide, ?_, by decide⟩ <;>
    simp [subscribe, sampleDB, sampleCourse, isUserSubscribed, findCourse]

/-- Claim C3 as amended: for a course with price > 0, a missing promo
code — or an empty-string one, which the JavaScript falsy test treats as
missing — fails with `Promo code required for paid courses`, and any
other supplied promo code that is not exactly `BFSALE25` fails with
`Invalid promo code`; both map to HTTP 400 and leave the state
unchanged. -/
theorem C3_invalid_or_missing_promo_fails (db : DB) (u cId i : String) (t : ℕ) (c : Course)
    (hfind : findCourse db cId = some c)
    (hns : isUserSubscribed db u cId = false)
    (hpos : 0 < c.price) :
    (subscribe db u cId none i t = .error "Promo code required for paid courses" ∧
      subscribeFinalDB db u cId none i t = db) ∧
    (subscribe db u cId (some "") i t = .error "Promo code required for paid courses" ∧
      subscribeFinalDB db u cId (some "") i t = db) ∧
    (∀ code, code ≠ "" → code ≠ VALID_PROMO_CODE →
      subscribe db u cId (some code) i t = .error "Invalid promo code" ∧
      subscribeFinalDB db u cId (some code) i t = db) ∧
    subscribeErrorStatus "Promo code required for paid courses" = 400 ∧
    subscribeErrorStatus "Invalid promo code" = 400 := by
  have h1 : subscribe db u cId none i t = .error "Promo code required for paid courses" := by
    simp [subscribe, hns, hfind, hpos.ne']
  have h2 : subscribe db u cId (some "") i t =
      .error "Promo code required for paid courses" := by
    simp [subscribe, hns, hfind, hpos.ne']
  refine ⟨⟨h1, by simp [subscribeFinalDB, h1]⟩, ⟨h2, by simp [subscribeFinalDB, h2]⟩,
    ?_, by decide, by decide⟩
  intro code hne hcode
  have h3 : subscribe db u cId (some code) i t = .error "Invalid promo code" := by
    simp [subscribe, hns, hfind, hpos.ne', hne, validatePromoCode, hcode]
  exact ⟨h3, by simp [subscribeFinalDB, h3]⟩

/-- Witness for C3 (amended): a wrong promo code on the $100 course is
rejected with `Invalid promo code` and nothing is persisted. -/
theorem C3_witness :
    subscribe sampleDB "u1" "c1" (some "WRONG25") "s1" 0 = .error "Invalid promo code" ∧
    subscribeFinalDB sampleDB "u1" "c1" (some "WRONG25") "s1" 0 = sampleDB :=
  (C3_invalid_or_missing_promo_fails sampleDB "u1" "c1" "s1" 0 sampleCourse
    (by simp [findCourse, sampleDB, sampleCourse])
    (by simp [isUserSubscribed, sampleDB])
    (by norm_num [sampleCourse])).2.2.1 "WRONG25" (by decide) (by decide)

/-- Counterexample for claim C4 as stated: the second subscribe for the
same pair fails with message `User already subscribed to this course`,
not the `already subscribed` the claim quotes. -/
theorem C4_counterexample :
    subscribe freeDB "u1" "c0" none "s1" 0 = .ok (freeSub, freeDB2) ∧
    subscribe freeDB2 "u1" "c0" none "s2" 1 =
      .error "User already subscribed to this course" ∧
    "User already subscribed to this course" ≠ "already subscribed" := by
  refine ⟨?_, ?_, by decide⟩ <;>
    simp [subscribe, freeDB, freeDB2, freeCourse, freeSub, isUserSubscribed, findCourse]

/-- Claim C4 as amended: starting from a state satisfying the
uniqueness invariant, a successful subscribe leaves exactly one
subscription for its pair and preserves the invariant, a second
subscribe for the same pair fails with
`User already subscribed to this course` (mapped to HTTP 409), and the
already-subscribed pre-check runs before course lookup and pricing:
whenever it fires, `subscribe` fails that way regardless of course
existence, price, or promo code. -/
theorem C4_unique_subscription_per_pair (db : DB) (u cId : String)
    (promo1 promo2 : Option String) (i1 i2 : String) (t1 t2 : ℕ)
    (sub : Subscription) (db2 : DB)
    (hinv : AtMostOnePerPair db)
    (h1 : subscribe db u cId promo1 i1 t1 = .ok (sub, db2)) :
    subscribe db2 u cId promo2 i2 t2 = .error "User already subscribed to this course" ∧
    subscribeErrorStatus "User already subscribed to this course" = 409 ∧
    countPair db2 u cId = 1 ∧
    AtMostOnePerPair db2 ∧
    (∀ db3 u3 c3 promo3 i3 t3, isUserSubscribed db3 u3 c3 = true →
      subscribe db3 u3 c3 promo3 i3 t3 =
        .error "User already subscribed to this course") := by
  obtain ⟨hns, c, hc, hid, hu, hcid, ht, hdb2, hprice⟩ :=
    subscribe_ok_inv db u cId promo1 i1 t1 sub db2 h1
  subst hdb2
  have hsubbed : isUserSubscribed
      { courses := db.courses, subscriptions := sub :: db.subscriptions } u cId = true := by
    simp [isUserSubscribed, hu, hcid]
  have hzero : countPair db u cId = 0 := countPair_eq_zero_of_not_subscribed db u cId hns
  have heta : ({ courses := db.courses, subscriptions := db.subscriptions } : DB) = db := rfl
  refine ⟨by simp [subscribe, hsubbed], by decide, ?_, ?_, ?_⟩
  · rw [countPair_cons, if_pos ⟨hu, hcid⟩, heta]
    omega
  · intro u3 c3
    rw [countPair_cons, heta]
    by_cases hm : sub.userId = u3 ∧ sub.courseId = c3
    · obtain ⟨hm1, hm2⟩ := hm
      have hu3 : u3 = u := by rw [← hm1, hu]
      have hc3 : c3 = cId := by rw [← hm2, hcid]
      subst hu3
      subst hc3
      rw [if_pos ⟨hu, hcid⟩]
      omega
    · rw [if_neg hm]
      have := hinv u3 c3
      omega
  · intro db3 u3 c3 promo3 i3 t3 h
    simp [subscribe, h]

/-- Witness for C4 (amended): after `u1` subscribes to the free course,
a second attempt — even with a valid promo code — is refused and
exactly one row exists for the pair. -/
theorem C4_witness :
    subscribe freeDB2 "u1" "c0" (some "BFSALE25") "s2" 1 =
      .error "User already subscribed to this course" ∧
    countPair freeDB2 "u1" "c0" = 1 := by
  have h := C4_unique_subscription_per_pair freeDB "u1" "c0" none (some "BFSALE25")
    "s1" "s2" 0 1 freeSub freeDB2
    (by intro u c; simp [AtMostOnePerPair, countPair, freeDB])
    (by simp [subscribe, freeDB, freeDB2, freeCourse, freeSub, isUserSubscribed, findCourse])
  exact ⟨h.1, h.2.2.1⟩

/-- Claim C5 (code bug): when the `UNIQUE(user_id, course_id)`
constraint rejects the racing INSERT, the resulting duplicate-key
error message matches none of the four messages the POST /subscribe
handler recognizes, so the handler answers 500, not the 409 the spec
requires. -/
theorem C5_duplicate_key_maps_to_500 :
    subscribeRaced sampleDB racedDB "u1" "c1" (some "BFSALE25") "s1" 1 =
      .error pgDuplicateKeyMessage ∧
    subscribeErrorStatus pgDuplicateKeyMessage = 500 ∧
    subscribeErrorStatus pgDuplicateKeyMessage ≠ 409 := by
  refine ⟨?_, by decide, by decide⟩
  simp [subscribeRaced, sampleDB, racedDB, sampleCourse, isUserSubscribed, findCourse,
    validatePromoCode, VALID_PROMO_CODE]

/-- Claim C6: `login` answers the identical `Invalid credentials`
error — same message, same 401 status — whether the e-mail is unknown
or the password mismatches, for every credential store, bcrypt
behaviour and signing function, so the two failure causes are
indistinguishable to the caller. -/
theorem C6_login_failures_indistinguishable (cmp : String → String → Bool)
    (sign : String → String) (users : List UserRow) (email password : String) :
    (users.find? (fun u => u.email = email) = none →
      login cmp sign users email password = .error "Invalid credentials") ∧
    (∀ user, users.find? (fun u => u.email = email) = some user →
      cmp password user.password = false →
      login cmp sign users email password = .error "Invalid credentials") ∧
    loginErrorStatus "Invalid credentials" = 401 := by
  refine ⟨fun h => by simp [login, h], fun user h hc => by simp [login, h, hc], by decide⟩

/-- Witness for C6: unknown e-mail (empty store) and known e-mail with
mismatching password produce the very same error value. -/
theorem C6_witness :
    login cmpNever signId [] "a@b.com" "password123" = .error "Invalid credentials" ∧
    login cmpNever signId [userAlice] "a@b.com" "password123" =
      .error "Invalid credentials" := by
  refine ⟨(C6_login_failures_indistinguishable cmpNever signId [] "a@b.com" "password123").1
      (by simp), ?_⟩
  exact (C6_login_failures_indistinguishable cmpNever signId [userAlice] "a@b.com"
      "password123").2.1 userAlice (by simp [userAlice]) (by simp [cmpNever])

/-- Claim C7: `verifyToken` fails closed — every `jwt.verify` throw
(bad signature, malformed token, expiry) becomes the in-band `none`,
never an escaping exception (`verifyToken` is total) — and the auth
middleware answers 401 for a missing header, a non-Bearer header, or a
rejected token, in each case without reaching the route handler. -/
theorem C7_verifyToken_fails_closed (jwtVerify : String → Except JwtError String) :
    (∀ token e, jwtVerify token = .error e → verifyToken jwtVerify token = none) ∧
    authMiddleware jwtVerify none = .respond 401 "Authorization header missing" ∧
    (∀ header, header.take 7 ≠ "Bearer " →
      authMiddleware jwtVerify (some header) =
        .respond 401 "Invalid authorization format. Expected: Bearer <token>") ∧
    (∀ header, header.take 7 = "Bearer " →
      verifyToken jwtVerify (header.drop 7) = none →
      authMiddleware jwtVerify (some header) =
        .respond 401 "Invalid or expired token") := by
  refine ⟨fun token e h => by simp [verifyToken, h], rfl,
    fun header hne => by simp [authMiddleware, hne],
    fun header heq hv => by simp [authMiddleware, heq, hv]⟩

/-- Witness for C7: under a `jwt.verify` that always throws
TokenExpiredError, every concrete malformed or expired request is
answered 401. -/
theorem C7_witness :
    verifyToken jwtAlwaysExpired "token123" = none ∧
    authMiddleware jwtAlwaysExpired none = .respond 401 "Authorization header missing" ∧
    authMiddleware jwtAlwaysExpired (some "Token abc") =
      .respond 401 "Invalid authorization format. Expected: Bearer <token>" ∧
    authMiddleware jwtAlwaysExpired (some "Bearer abc") =
      .respond 401 "Invalid or expired token" := by
  have h := C7_verifyToken_fails_closed jwtAlwaysExpired
  exact ⟨h.1 "token123" .expired rfl, h.2.1, h.2.2.1 "Token abc" (by decide),
    h.2.2.2 "Bearer abc" (by decide) (h.1 ("Bearer abc".drop 7) .expired rfl)⟩

/-- Counterexample for claim C9 as stated: for the one-cent course the
discounted price `round(0.01 * 0.5, 2)` is one cent again — the full
course price IS charged. -/
theorem C9_counterexample :
    subscribe pennyDB "u1" "cp" (some "BFSALE25") "s1" 0 =
      .ok ({ id := "s1", userId := "u1", courseId := "cp", pricePaid := 1/100,
             subscribedAt := 0 },
        { courses := [pennyCourse],
          subscriptions := [{ id := "s1", userId := "u1", courseId := "cp",
                              pricePaid := 1/100, subscribedAt := 0 }] }) ∧
    (1/100 : ℚ) = pennyCourse.price := by
  constructor
  · simp [subscribe, pennyDB, pennyCourse, isUserSubscribed, findCourse,
      validatePromoCode, VALID_PROMO_CODE, PROMO_DISCOUNT]
    norm_num [calculateDiscountedPrice, toFixed2]
  · norm_num [pennyCourse]

/-- Claim C9 as amended: every successful subscribe on a course whose
price is a non-negative `DECIMAL(10, 2)` value `m/100` pays 0 if the
course is free and exactly `round(price * 0.5, 2)` otherwise — never
any other rate — with `0 ≤ pricePaid ≤ price`; the payment is strictly
below the full price whenever the price is at least two cents, the
one-cent course being the only paid course whose rounded half equals
the full price. -/
theorem C9_price_paid_bounds (db : DB) (u cId : String) (promo : Option String)
    (i : String) (t : ℕ) (c : Course) (sub : Subscription) (db2 : DB) (m : ℕ)
    (hfind : findCourse db cId = some c)
    (hprice : c.price = (m : ℚ) / 100)
    (hok : subscribe db u cId promo i t = .ok (sub, db2)) :
    (c.price = 0 → sub.pricePaid = 0) ∧
    (c.price ≠ 0 → sub.pricePaid = roundSpec2 (c.price * (1/2))) ∧
    0 ≤ sub.pricePaid ∧ sub.pricePaid ≤ c.price ∧
    (2 ≤ m → sub.pricePaid < c.price) := by
  obtain ⟨hns, c2, hc2, hid, hu, hcid, ht, hdb2, hpp⟩ :=
    subscribe_ok_inv db u cId promo i t sub db2 hok
  rw [hfind] at hc2
  have hcc : c2 = c := (Option.some.inj hc2).symm
  rw [hcc] at hpp
  rcases hpp with ⟨hzero, hpp0⟩ | ⟨hnz, hpromo, hppv⟩
  · have hm0 : m = 0 := by
      have : ((m : ℚ) / 100) = 0 := hprice ▸ hzero
      have hmq : (m : ℚ) = 0 := by
        field_simp at this
        exact_mod_cast this
      exact_mod_cast hmq
    exact ⟨fun _ => hpp0, fun hne => absurd hzero hne, by rw [hpp0],
      by rw [hpp0, hzero], fun h2 => absurd (hm0 ▸ h2) (by omega)⟩
  · have hm1 : 1 ≤ m := by
      rcases Nat.eq_zero_or_pos m with h0 | h1
      · exact absurd (by rw [hprice, h0]; norm_num) hnz
      · exact h1
    have hpnn : 0 ≤ c.price := by rw [hprice]; positivity
    have hppr : sub.pricePaid = roundSpec2 (c.price * (1/2)) := by
      rw [hppv]
      exact calculateDiscountedPrice_eq_roundSpec2 _ hpnn
    refine ⟨fun h0 => absurd h0 hnz, fun _ => hppr, ?_, ?_, ?_⟩
    · rw [hppr]
      exact roundSpec2_nonneg _ (by positivity)
    · rw [hppr, hprice]
      exact roundSpec2_half_le m hm1
    · intro h2
      rw [hppr, hprice]
      exact roundSpec2_half_lt m h2

/-- Witness for C9 (amended): the $100 course (10000 cents) is paid at
$50 — non-negative, at most the price, and strictly below it. -/
theorem C9_witness :
    0 ≤ sampleSub.pricePaid ∧ sampleSub.pricePaid ≤ sampleCourse.price ∧
    sampleSub.pricePaid < sampleCourse.price := by
  have h := C9_price_paid_bounds sampleDB "u1" "c1" (some "BFSALE25") "s1" 0
    sampleCourse sampleSub sampleDB2 10000
    (by simp [findCourse, sampleDB, sampleCourse])
    (by norm_num [sampleCourse])
    (by simp [subscribe, sampleDB, sampleDB2, sampleCourse, sampleSub, isUserSubscribed,
        findCourse, validatePromoCode, VALID_PROMO_CODE, PROMO_DISCOUNT]
        norm_num [calculateDiscountedPrice, toFixed2])
  exact ⟨h.2.2.1, h.2.2.2.1, h.2.2.2.2 (by norm_num)⟩

/-- Claim C10: a POST /auth/login whose password is shorter than 8
characters is answered 400 `Validation failed` by the schema check —
for every credential store and bcrypt behaviour, so the credential
check cannot have run — and that response differs from the uniform 401
`Invalid credentials`; for passwords of length at least 8 a credential
failure is answered with that uniform 401. -/
theorem C10_short_password_rejected_before_login (emailValid : String → Bool)
    (cmp : String → String → Bool) (sign : String → String) (users : List UserRow)
    (email password : String) (hshort : password.length < 8) :
    loginRoute emailValid cmp sign users email password =
      { status := 400, body := "Validation failed" } ∧
    (∀ users2 cmp2, loginRoute emailValid cmp2 sign users2 email password =
      { status := 400, body := "Validation failed" }) ∧
    ({ status := 400, body := "Validation failed" } : HttpResponse) ≠
      { status := 401, body := "Invalid credentials" } ∧
    (∀ password2, 8 ≤ password2.length → emailValid email = true →
      login cmp sign users email password2 = .error "Invalid credentials" →
      loginRoute emailValid cmp sign users email password2 =
        { status := 401, body := "Invalid credentials" }) := by
  have hn : ¬(8 ≤ password.length) := Nat.not_le.mpr hshort
  refine ⟨by simp [loginRoute, hn], fun users2 cmp2 => by simp [loginRoute, hn],
    by decide, ?_⟩
  intro password2 hlen hev hl
  simp [loginRoute, hev, hlen, hl, loginErrorStatus]

/-- Witness for C10: a five-character password is rejected with 400
before any credential check. -/
theorem C10_witness :
    loginRoute emailValidAll cmpNever signId [] "a@b.com" "short" =
      { status := 400, body := "Validation failed" } :=
  (C10_short_password_rejected_before_login emailValidAll cmpNever signId []
    "a@b.com" "short" (by decide)).1

end CourseShop
